import Mathlib

/-!
Shallow embedding of a set of small three.js visual experiments:

* `TorusKnotExperiment` — src/experiments/torus-knot/main.ts (dither shader,
  single direct render per frame).
* `TrefoilHalftoneExperiment` — src/experiments/trefoil-halftone/main.ts
  (halftone shader, single direct render per frame).
* `TorusPrismComposerExperiment` — the two composer-based torus-prism
  variants: the shader-bloom variant (src/unnamed/part_000, first document)
  and the physical-glass bloom variant (src/experiments/torus-prism/main.ts).
  Their resize, export and animate routines are the same shape line for line.
* `TorusPrismRefraction` — the multi-pass refraction torus-prism variant
  (src/unnamed/part_000, second document).

Dimensions, aspect ratios and pixel ratios are modelled as rationals (`ℚ`);
JavaScript numbers are doubles, but every operation appearing here
(multiplication by 4, division, `Math.min` with 2) is exact on the
dyadic-rational inputs of interest, so `ℚ` is a faithful carrier.
The DOM, the GPU and the OrbitControls library are external collaborators:
renders are modelled as emitted events capturing the state they observe,
and `controls.update()` does not touch any modelled field.
-/

set_option autoImplicit false

namespace ThreeExperiments

/-- `THREE.FrontSide` / `THREE.BackSide` / `THREE.DoubleSide` face-culling
modes of a material. -/
inductive Side where
  | FrontSide
  | BackSide
  | DoubleSide
  deriving DecidableEq, Repr

/-- The two offscreen refraction render targets of the refraction variant:
`backRenderTarget` and `mainRenderTarget`. -/
inductive RT where
  | backTarget
  | mainTarget
  deriving DecidableEq, Repr

/-- Possible values of the texture-valued `uTexture` uniform: `null`
(initial), `backRenderTarget.texture`, or `mainRenderTarget.texture`. -/
inductive TextureRef where
  | nullTex
  | backTexture
  | mainTexture
  deriving DecidableEq, Repr

/-- The texture populated by a render into the given offscreen target. -/
def targetTexture : RT → TextureRef
  | RT.backTarget => TextureRef.backTexture
  | RT.mainTarget => TextureRef.mainTexture

/-- The `THREE.ShaderMaterial` of the refraction variant
(src/unnamed/part_000, `createMaterial`, lines 267–296): the full uniform
set, with `side` defaulting to `FrontSide` (three.js default, no `side`
option is passed). -/
structure RefractionMaterial where
  uTexture : TextureRef
  uIorR : ℚ
  uIorY : ℚ
  uIorG : ℚ
  uIorC : ℚ
  uIorB : ℚ
  uIorP : ℚ
  uRefractPower : ℚ
  uChromaticAberration : ℚ
  uSaturation : ℚ
  uShininess : ℚ
  uDiffuseness : ℚ
  uFresnelPower : ℚ
  uLight : ℚ × ℚ × ℚ
  winResolution : ℚ × ℚ
  side : Side
  deriving DecidableEq, Repr

/-- State of the refraction torus-prism experiment
(src/unnamed/part_000, second document, class `TorusPrismExperiment`):
the knot mesh's visibility flag, the shader material, the renderer's
currently bound render target (`none` = default screen framebuffer),
renderer CSS size and pixel ratio, camera aspect, and the sizes of the
two offscreen render targets. -/
structure TorusPrismRefraction where
  torusKnotVisible : Bool
  material : RefractionMaterial
  renderTarget : Option RT
  rendererWidth : ℚ
  rendererHeight : ℚ
  dpr : ℚ
  cameraAspect : ℚ
  backTargetSize : ℚ × ℚ
  mainTargetSize : ℚ × ℚ
  deriving DecidableEq, Repr

/-- One `renderer.render(scene, camera)` call of the refraction variant,
recording the state it observes: the bound target, the knot's visibility,
and the material's `uTexture` and `side` at the moment of the call. -/
structure RenderCall where
  target : Option RT
  torusKnotVisible : Bool
  uTexture : TextureRef
  side : Side
  deriving DecidableEq, Repr

/-- Snapshot of the observable state at a `renderer.render` call. -/
def renderCall (s : TorusPrismRefraction) : RenderCall :=
  { target := s.renderTarget
    torusKnotVisible := s.torusKnotVisible
    uTexture := s.material.uTexture
    side := s.material.side }

/-- `TorusPrismExperiment.animate` of the refraction variant
(src/unnamed/part_000 lines 349–372), one invocation of the per-frame
callback. `controls.update()` touches no modelled field. Statements are
modelled in source order:

1. `torusKnot.visible = false`, bind `backRenderTarget`, render;
2. `uTexture = backRenderTarget.texture`, `side = BackSide`,
   `torusKnot.visible = true`, bind `mainRenderTarget`, render;
3. `uTexture = mainRenderTarget.texture`, `side = FrontSide`,
   bind `null` (screen), render.

Returns the post-frame state and the three emitted render calls. -/
def TorusPrismRefraction.animate (s : TorusPrismRefraction) :
    TorusPrismRefraction × List RenderCall :=
  let s1 : TorusPrismRefraction :=
    { s with torusKnotVisible := false, renderTarget := some RT.backTarget }
  let c1 := renderCall s1
  let s2 : TorusPrismRefraction :=
    { s1 with
        material := { s1.material with
                        uTexture := TextureRef.backTexture
                        side := Side.BackSide }
        torusKnotVisible := true
        renderTarget := some RT.mainTarget }
  let c2 := renderCall s2
  let s3 : TorusPrismRefraction :=
    { s2 with
        material := { s2.material with
                        uTexture := TextureRef.mainTexture
                        side := Side.FrontSide }
        renderTarget := none }
  let c3 := renderCall s3
  (s3, [c1, c2, c3])

/-- `TorusPrismExperiment.onResize` of the refraction variant
(src/unnamed/part_000 lines 311–332): recompute the camera aspect from the
new window size, resize the renderer, resize both offscreen targets to the
window size scaled by `Math.min(devicePixelRatio, 2)`, and update the
`winResolution` uniform to the same scaled size. -/
def TorusPrismRefraction.onResize (s : TorusPrismRefraction)
    (w h devicePixelRatio : ℚ) : TorusPrismRefraction :=
  let d := min devicePixelRatio 2
  { s with
      cameraAspect := w / h
      rendererWidth := w
      rendererHeight := h
      backTargetSize := (w * d, h * d)
      mainTargetSize := (w * d, h * d)
      material := { s.material with winResolution := (w * d, h * d) } }

/-- Destination of a render call in the single-pass experiments: directly
to the screen (`renderer.render`), through the post-processing chain
(`composer.render`), or into an offscreen refraction target (never emitted
by these experiments, present so "never renders offscreen" is sayable). -/
inductive RenderDest where
  | screen
  | composerChain
  | offscreen (t : RT)
  deriving DecidableEq, Repr

/-- A PNG download triggered by an export handler: the `link.download`
filename and the pixel dimensions of the serialized canvas
(`renderer.domElement.width/height` at the moment of `toDataURL`). -/
structure DownloadEvent where
  filename : String
  imageWidth : ℚ
  imageHeight : ℚ
  deriving DecidableEq, Repr

/-- State of the torus-knot dither experiment
(src/experiments/torus-knot/main.ts, class `TorusKnotExperiment`):
renderer CSS size, pixel ratio (set to 1 in the constructor), camera
aspect, and the `uResolution` uniform. -/
structure TorusKnotExperiment where
  rendererWidth : ℚ
  rendererHeight : ℚ
  dpr : ℚ
  cameraAspect : ℚ
  uResolution : ℚ × ℚ
  deriving DecidableEq, Repr

/-- Drawing-buffer width of the canvas: `renderer.domElement.width`,
which three.js keeps at CSS width × pixel ratio. -/
def TorusKnotExperiment.canvasWidth (s : TorusKnotExperiment) : ℚ :=
  s.rendererWidth * s.dpr

/-- Drawing-buffer height of the canvas: `renderer.domElement.height`. -/
def TorusKnotExperiment.canvasHeight (s : TorusKnotExperiment) : ℚ :=
  s.rendererHeight * s.dpr

/-- `renderer.setSize(w, h)`: sets the CSS size; the drawing buffer
follows as size × pixel ratio. -/
def TorusKnotExperiment.setSize (s : TorusKnotExperiment) (w h : ℚ) :
    TorusKnotExperiment :=
  { s with rendererWidth := w, rendererHeight := h }

/-- `TorusKnotExperiment.onResize`
(src/experiments/torus-knot/main.ts lines 130–135). -/
def TorusKnotExperiment.onResize (s : TorusKnotExperiment) (w h : ℚ) :
    TorusKnotExperiment :=
  let s := { s with cameraAspect := w / h }
  let s := s.setSize w h
  { s with uResolution := (w, h) }

/-- `TorusKnotExperiment.animate`
(src/experiments/torus-knot/main.ts lines 175–180): `controls.update()`
then a single `renderer.render(scene, camera)` to the screen. -/
def TorusKnotExperiment.animate (s : TorusKnotExperiment) :
    TorusKnotExperiment × List RenderDest :=
  (s, [RenderDest.screen])

/-- `TorusKnotExperiment.exportHighRes`
(src/experiments/torus-knot/main.ts lines 144–173), with the window size
and `Date.now()` as inputs. Source order: capture
`renderer.domElement.width/height`, upscale renderer / `uResolution` /
camera aspect to 4× the window size, render once, serialize the canvas and
download, then call `setSize(originalWidth / scale, originalHeight / scale)`
and restore `uResolution` and aspect from the window size. Returns the
post state, the number of renders performed, and the download event. -/
def TorusKnotExperiment.exportHighRes (s : TorusKnotExperiment)
    (winW winH : ℚ) (now : ℕ) :
    TorusKnotExperiment × ℕ × DownloadEvent :=
  let scale : ℚ := 4
  let width := winW * scale
  let height := winH * scale
  let originalWidth := s.canvasWidth
  let originalHeight := s.canvasHeight
  let s1 := s.setSize width height
  let s1 := { s1 with uResolution := (width, height),
                      cameraAspect := width / height }
  let download : DownloadEvent :=
    { filename := "torus-knot-" ++ toString now ++ ".png"
      imageWidth := s1.canvasWidth
      imageHeight := s1.canvasHeight }
  let s2 := s1.setSize (originalWidth / scale) (originalHeight / scale)
  let s2 := { s2 with uResolution := (winW, winH),
                      cameraAspect := winW / winH }
  (s2, 1, download)

/-- State of the trefoil-halftone experiment
(src/experiments/trefoil-halftone/main.ts, class
`TrefoilHalftoneExperiment`): like the torus-knot one plus the scaled
`uDotDensity` uniform. -/
structure TrefoilHalftoneExperiment where
  rendererWidth : ℚ
  rendererHeight : ℚ
  dpr : ℚ
  cameraAspect : ℚ
  uResolution : ℚ × ℚ
  uDotDensity : ℚ
  deriving DecidableEq, Repr

/-- `renderer.domElement.width` of the trefoil experiment. -/
def TrefoilHalftoneExperiment.canvasWidth (s : TrefoilHalftoneExperiment) :
    ℚ := s.rendererWidth * s.dpr

/-- `renderer.domElement.height` of the trefoil experiment. -/
def TrefoilHalftoneExperiment.canvasHeight (s : TrefoilHalftoneExperiment) :
    ℚ := s.rendererHeight * s.dpr

/-- `renderer.setSize(w, h)` of the trefoil experiment. -/
def TrefoilHalftoneExperiment.setSize (s : TrefoilHalftoneExperiment)
    (w h : ℚ) : TrefoilHalftoneExperiment :=
  { s with rendererWidth := w, rendererHeight := h }

/-- `TrefoilHalftoneExperiment.onResize`
(src/experiments/trefoil-halftone/main.ts lines 102–107). -/
def TrefoilHalftoneExperiment.onResize (s : TrefoilHalftoneExperiment)
    (w h : ℚ) : TrefoilHalftoneExperiment :=
  let s := { s with cameraAspect := w / h }
  let s := s.setSize w h
  { s with uResolution := (w, h) }

/-- `TrefoilHalftoneExperiment.animate`
(src/experiments/trefoil-halftone/main.ts lines 151–155): one direct
render to the screen. -/
def TrefoilHalftoneExperiment.animate (s : TrefoilHalftoneExperiment) :
    TrefoilHalftoneExperiment × List RenderDest :=
  (s, [RenderDest.screen])

/-- `TrefoilHalftoneExperiment.exportHighRes`
(src/experiments/trefoil-halftone/main.ts lines 116–149): like the
torus-knot export, and additionally scales `uDotDensity` by 4 for the
high-res render and restores the captured original value afterwards. -/
def TrefoilHalftoneExperiment.exportHighRes (s : TrefoilHalftoneExperiment)
    (winW winH : ℚ) (now : ℕ) :
    TrefoilHalftoneExperiment × ℕ × DownloadEvent :=
  let scale : ℚ := 4
  let width := winW * scale
  let height := winH * scale
  let originalWidth := s.canvasWidth
  let originalHeight := s.canvasHeight
  let originalDotDensity := s.uDotDensity
  let s1 := s.setSize width height
  let s1 := { s1 with uResolution := (width, height),
                      uDotDensity := originalDotDensity * scale,
                      cameraAspect := width / height }
  let download : DownloadEvent :=
    { filename := "trefoil-halftone-" ++ toString now ++ ".png"
      imageWidth := s1.canvasWidth
      imageHeight := s1.canvasHeight }
  let s2 := s1.setSize (originalWidth / scale) (originalHeight / scale)
  let s2 := { s2 with uResolution := (winW, winH),
                      uDotDensity := originalDotDensity,
                      cameraAspect := winW / winH }
  (s2, 1, download)

/-- State shared by the two composer-based torus-prism variants
(src/unnamed/part_000 first document and
src/experiments/torus-prism/main.ts, both class `TorusPrismExperiment`):
renderer CSS size, pixel ratio (`Math.min(devicePixelRatio, 2)` at
construction), `EffectComposer` size, and camera aspect. Their resize,
export and animate routines are textually the same shape, so one embedding
serves both. -/
structure TorusPrismComposerExperiment where
  rendererWidth : ℚ
  rendererHeight : ℚ
  dpr : ℚ
  composerWidth : ℚ
  composerHeight : ℚ
  cameraAspect : ℚ
  deriving DecidableEq, Repr

/-- `renderer.domElement.width` of a composer-based prism variant. -/
def TorusPrismComposerExperiment.canvasWidth
    (s : TorusPrismComposerExperiment) : ℚ := s.rendererWidth * s.dpr

/-- `renderer.domElement.height` of a composer-based prism variant. -/
def TorusPrismComposerExperiment.canvasHeight
    (s : TorusPrismComposerExperiment) : ℚ := s.rendererHeight * s.dpr

/-- `TorusPrismExperiment.onResize` of the composer-based variants
(src/unnamed/part_000 lines 108–113; src/experiments/torus-prism/main.ts
lines 161–166): camera aspect, renderer size, composer size. -/
def TorusPrismComposerExperiment.onResize (s : TorusPrismComposerExperiment)
    (w h : ℚ) : TorusPrismComposerExperiment :=
  { s with
      cameraAspect := w / h
      rendererWidth := w
      rendererHeight := h
      composerWidth := w
      composerHeight := h }

/-- `TorusPrismExperiment.animate` of the composer-based variants
(src/unnamed/part_000 lines 149–153; src/experiments/torus-prism/main.ts
lines 198–202): `controls.update()` then a single `composer.render()`
through the post-processing chain. -/
def TorusPrismComposerExperiment.animate (s : TorusPrismComposerExperiment) :
    TorusPrismComposerExperiment × List RenderDest :=
  (s, [RenderDest.composerChain])

/-- `TorusPrismExperiment.exportHighRes` of the composer-based variants
(src/unnamed/part_000 lines 122–147; src/experiments/torus-prism/main.ts
lines 175–196): upscale renderer, composer and camera aspect to 4× the
window size, `composer.render()` once, serialize and download, then
restore from `window.innerWidth/innerHeight`. -/
def TorusPrismComposerExperiment.exportHighRes
    (s : TorusPrismComposerExperiment) (winW winH : ℚ) (now : ℕ) :
    TorusPrismComposerExperiment × ℕ × DownloadEvent :=
  let scale : ℚ := 4
  let width := winW * scale
  let height := winH * scale
  let s1 : TorusPrismComposerExperiment :=
    { s with
        rendererWidth := width
        rendererHeight := height
        composerWidth := width
        composerHeight := height
        cameraAspect := width / height }
  let download : DownloadEvent :=
    { filename := "torus-prism-" ++ toString now ++ ".png"
      imageWidth := s1.canvasWidth
      imageHeight := s1.canvasHeight }
  let s2 : TorusPrismComposerExperiment :=
    { s1 with
        rendererWidth := winW
        rendererHeight := winH
        composerWidth := winW
        composerHeight := winH
        cameraAspect := winW / winH }
  (s2, 1, download)

/-- `renderer.domElement.width` of the refraction variant. -/
def TorusPrismRefraction.canvasWidth (s : TorusPrismRefraction) : ℚ :=
  s.rendererWidth * s.dpr

/-- `renderer.domElement.height` of the refraction variant. -/
def TorusPrismRefraction.canvasHeight (s : TorusPrismRefraction) : ℚ :=
  s.rendererHeight * s.dpr

/-- `TorusPrismExperiment.exportHighRes` of the refraction variant
(src/unnamed/part_000 lines 341–347): it only serializes the current
canvas (`toDataURL`) into a timestamp-named PNG and triggers the download
— no resize, no render, no uniform change. It returns the unchanged
state, the number of renders performed (zero), and the download event. -/
def TorusPrismRefraction.exportHighRes (s : TorusPrismRefraction)
    (now : ℕ) : TorusPrismRefraction × ℕ × DownloadEvent :=
  (s, 0,
    { filename := "torus-prism-" ++ toString now ++ ".png"
      imageWidth := s.canvasWidth
      imageHeight := s.canvasHeight })

/-- Outcome of running an experiment's constructor: whether the canvas was
appended to the DOM mount point, whether the `OrbitControls` were created,
whether the animation loop was started, and the initial state. Every
constructor is a total function of its inputs — construction always
completes without raising. -/
structure ConstructionResult (St : Type) where
  canvasAppended : Bool
  controlsCreated : Bool
  animationStarted : Bool
  state : St
  deriving DecidableEq, Repr

/-- `TorusKnotExperiment` constructor
(src/experiments/torus-knot/main.ts lines 26–74): pixel ratio 1, camera
aspect and `uResolution` from the window size; the canvas is appended only
when the `canvas-container` element is present (`if (container)`), and
controls, scene and the animation loop are set up either way. -/
def TorusKnotExperiment.construct (winW winH : ℚ)
    (containerPresent : Bool) : ConstructionResult TorusKnotExperiment :=
  { canvasAppended := containerPresent
    controlsCreated := true
    animationStarted := true
    state :=
      { rendererWidth := winW
        rendererHeight := winH
        dpr := 1
        cameraAspect := winW / winH
        uResolution := (winW, winH) } }

/-- `TrefoilHalftoneExperiment` constructor
(src/experiments/trefoil-halftone/main.ts lines 23–71): pixel ratio 1,
`uDotDensity` initialised to 6. -/
def TrefoilHalftoneExperiment.construct (winW winH : ℚ)
    (containerPresent : Bool) :
    ConstructionResult TrefoilHalftoneExperiment :=
  { canvasAppended := containerPresent
    controlsCreated := true
    animationStarted := true
    state :=
      { rendererWidth := winW
        rendererHeight := winH
        dpr := 1
        cameraAspect := winW / winH
        uResolution := (winW, winH)
        uDotDensity := 6 } }

/-- Constructor of the composer-based torus-prism variants
(src/unnamed/part_000 lines 19–67; src/experiments/torus-prism/main.ts):
pixel ratio `Math.min(devicePixelRatio, 2)`. -/
def TorusPrismComposerExperiment.construct (winW winH devicePixelRatio : ℚ)
    (containerPresent : Bool) :
    ConstructionResult TorusPrismComposerExperiment :=
  { canvasAppended := containerPresent
    controlsCreated := true
    animationStarted := true
    state :=
      { rendererWidth := winW
        rendererHeight := winH
        dpr := min devicePixelRatio 2
        composerWidth := winW
        composerHeight := winH
        cameraAspect := winW / winH } }

/-- Constructor of the refraction torus-prism variant
(src/unnamed/part_000 lines 174–243): both offscreen targets sized
window × `Math.min(devicePixelRatio, 2)`, material uniforms from
`createMaterial` (lines 267–296) with `uTexture` initially `null` and the
three.js default `FrontSide`, renderer bound to the screen framebuffer,
knot mesh visible. -/
def TorusPrismRefraction.construct (winW winH devicePixelRatio : ℚ)
    (containerPresent : Bool) : ConstructionResult TorusPrismRefraction :=
  let d := min devicePixelRatio 2
  { canvasAppended := containerPresent
    controlsCreated := true
    animationStarted := true
    state :=
      { torusKnotVisible := true
        material :=
          { uTexture := TextureRef.nullTex
            uIorR := 115/100
            uIorY := 116/100
            uIorG := 118/100
            uIorC := 122/100
            uIorB := 122/100
            uIorP := 122/100
            uRefractPower := 1/4
            uChromaticAberration := 1/2
            uSaturation := 114/100
            uShininess := 15
            uDiffuseness := 1/5
            uFresnelPower := 8
            uLight := (-1, 1, 1)
            winResolution := (winW * d, winH * d)
            side := Side.FrontSide }
        renderTarget := none
        rendererWidth := winW
        rendererHeight := winH
        dpr := d
        cameraAspect := winW / winH
        backTargetSize := (winW * d, winH * d)
        mainTargetSize := (winW * d, winH * d) } }

/-- Concrete torus-knot experiment state: constructed in a 1000×500 window
with the mount point present. -/
def knot0 : TorusKnotExperiment :=
  (TorusKnotExperiment.construct 1000 500 true).state

/-- Concrete trefoil-halftone experiment state (1000×500 window). -/
def trefoil0 : TrefoilHalftoneExperiment :=
  (TrefoilHalftoneExperiment.construct 1000 500 true).state

/-- Concrete composer-based torus-prism state (1000×500 window,
device pixel ratio 1). -/
def prism0 : TorusPrismComposerExperiment :=
  (TorusPrismComposerExperiment.construct 1000 500 1 true).state

/-- Concrete refraction torus-prism state (1000×500 window,
device pixel ratio 1). -/
def refr0 : TorusPrismRefraction :=
  (TorusPrismRefraction.construct 1000 500 1 true).state

/-- **C1.** In the refraction experiment's per-frame sequence, the passes
write `backRenderTarget`, then `mainRenderTarget`, then the screen
(`none`); at the moment of the final on-screen render the `uTexture`
uniform holds the `mainRenderTarget` texture — the buffer written by the
immediately preceding pass — and that texture is distinct from the
`backRenderTarget` texture written two passes prior, so the final render
never references the stale buffer. -/
theorem animate_final_render_uses_main_target (s : TorusPrismRefraction) :
    s.animate.2.map RenderCall.target =
      [some RT.backTarget, some RT.mainTarget, none] ∧
    s.animate.2.map RenderCall.uTexture =
      [s.material.uTexture, targetTexture RT.backTarget,
        targetTexture RT.mainTarget] ∧
    targetTexture RT.mainTarget ≠ targetTexture RT.backTarget := by
  refine ⟨rfl, rfl, by decide⟩

/-- Closed instance of `animate_final_render_uses_main_target` at the
concrete 1000×500 constructor state. -/
theorem animate_final_render_uses_main_target_witness :
    refr0.animate.2.map RenderCall.target =
      [some RT.backTarget, some RT.mainTarget, none] ∧
    refr0.animate.2.map RenderCall.uTexture =
      [refr0.material.uTexture, targetTexture RT.backTarget,
        targetTexture RT.mainTarget] ∧
    targetTexture RT.mainTarget ≠ targetTexture RT.backTarget :=
  animate_final_render_uses_main_target refr0

/-- **C5.** In every frame of the refraction experiment the knot mesh is
invisible during the background-only pass (the render into
`backRenderTarget`) and visible during both the back-face pass (into
`mainRenderTarget`) and the front-face pass (to the screen). -/
theorem animate_visibility_per_pass (s : TorusPrismRefraction) :
    s.animate.2.map (fun c => (c.target, c.torusKnotVisible)) =
      [(some RT.backTarget, false), (some RT.mainTarget, true),
        (none, true)] := rfl

/-- **C6.** In every frame of the refraction experiment the material's
face-culling side is `BackSide` during pass 2 (the render into
`mainRenderTarget`) and `FrontSide` during pass 3 (the render to the
screen framebuffer). -/
theorem animate_side_per_pass (s : TorusPrismRefraction) :
    s.animate.2.map RenderCall.target =
      [some RT.backTarget, some RT.mainTarget, none] ∧
    (s.animate.2[1]?).map RenderCall.side = some Side.BackSide ∧
    (s.animate.2[2]?).map RenderCall.side = some Side.FrontSide := by
  refine ⟨rfl, rfl, rfl⟩

/-- **C10.** At the end of every invocation of the refraction animation
callback the renderer's bound render target is the default screen
framebuffer (`none`) and the material's side is `FrontSide` — the same
post-frame state whatever the frame started from, so every frame's
background-only pass begins from it. -/
theorem animate_post_state (s : TorusPrismRefraction) :
    s.animate.1.renderTarget = none ∧
    s.animate.1.material.side = Side.FrontSide := ⟨rfl, rfl⟩

/-- **C2.** For every experiment, resizing to a window of dimensions
`(w, h)` leaves the camera aspect equal to `w / h`; in the refraction
experiment — the only one owning offscreen render targets — both targets
are resized to `(w × devicePixelRatio, h × devicePixelRatio)` with the
pixel ratio clamped to a maximum of 2. -/
theorem onResize_aspect_and_target_sizes (w h devicePixelRatio : ℚ)
    (sk : TorusKnotExperiment) (st : TrefoilHalftoneExperiment)
    (sp : TorusPrismComposerExperiment) (sr : TorusPrismRefraction) :
    (sk.onResize w h).cameraAspect = w / h ∧
    (st.onResize w h).cameraAspect = w / h ∧
    (sp.onResize w h).cameraAspect = w / h ∧
    (sr.onResize w h devicePixelRatio).cameraAspect = w / h ∧
    (sr.onResize w h devicePixelRatio).backTargetSize =
      (w * min devicePixelRatio 2, h * min devicePixelRatio 2) ∧
    (sr.onResize w h devicePixelRatio).mainTargetSize =
      (w * min devicePixelRatio 2, h * min devicePixelRatio 2) :=
  ⟨rfl, rfl, rfl, rfl, rfl, rfl⟩

/-- **C3.** The torus-knot export does *not* restore the canvas to its
pre-export size, although the code's own comment says "Restore original
size": starting from the constructor state of a 1000×500 window (canvas
1000×500, pixel ratio 1), one export leaves the canvas at 250×125 —
`setSize(originalWidth / scale, originalHeight / scale)` divides the
pre-export drawing-buffer size by 4. Both of two successive exports do
produce images of identical pixel dimensions (4000×2000), but the second
export shrinks the canvas further, to 62.5×31.25. -/
theorem exportHighRes_fails_to_restore_canvas :
    knot0.canvasWidth = 1000 ∧ knot0.canvasHeight = 500 ∧
    (knot0.exportHighRes 1000 500 1).1.canvasWidth = 250 ∧
    (knot0.exportHighRes 1000 500 1).1.canvasHeight = 125 ∧
    ((knot0.exportHighRes 1000 500 1).2.2.imageWidth,
      (knot0.exportHighRes 1000 500 1).2.2.imageHeight) = (4000, 2000) ∧
    (((knot0.exportHighRes 1000 500 1).1.exportHighRes 1000 500 2).2.2.imageWidth,
      ((knot0.exportHighRes 1000 500 1).1.exportHighRes 1000 500 2).2.2.imageHeight) =
      (4000, 2000) ∧
    ((knot0.exportHighRes 1000 500 1).1.exportHighRes 1000 500 2).1.canvasWidth =
      125 / 2 := by
  refine ⟨?_, ?_, ?_, ?_, ?_, ?_, ?_⟩ <;>
    norm_num [knot0, TorusKnotExperiment.construct,
      TorusKnotExperiment.exportHighRes, TorusKnotExperiment.canvasWidth,
      TorusKnotExperiment.canvasHeight, TorusKnotExperiment.setSize]

/-- **C4 (counterexample).** The refraction variant's export, at the
concrete constructor state of a 1000×500 window, performs zero renders and
changes nothing — in particular it does not scale the rendering resolution
by 4 — refuting the claim that every experiment's export scales resolution
4× and forces a synchronous render. -/
theorem refraction_export_no_scale_no_render :
    (refr0.exportHighRes 1).1 = refr0 ∧
    (refr0.exportHighRes 1).2.1 = 0 ∧
    refr0.rendererWidth = 1000 ∧
    (refr0.exportHighRes 1).1.rendererWidth = 1000 := by
  refine ⟨rfl, rfl, by decide, by decide⟩

/-- **C4 (amended).** Exact behaviour of every export handler. The
composer-based torus-prism variants scale the resolution 4×, render once
synchronously, serialize a PNG download named `torus-prism-<now>.png` of
the upscaled canvas, and restore the window-derived original resolution.
The torus-knot and trefoil-halftone exports scale 4×, render once,
download a timestamp-named PNG of the upscaled canvas, but their restore
step sets the renderer to the pre-export drawing-buffer size divided by 4
(the C3 defect) while restoring the uniforms and camera aspect. The
refraction variant performs no scaling and no render: it only serializes
the current canvas and triggers the timestamp-named download. -/
theorem exportHighRes_behaviour (winW winH : ℚ) (now : ℕ)
    (sk : TorusKnotExperiment) (st : TrefoilHalftoneExperiment)
    (sp : TorusPrismComposerExperiment) (sr : TorusPrismRefraction) :
    sk.exportHighRes winW winH now =
      ({ sk with
          rendererWidth := sk.canvasWidth / 4
          rendererHeight := sk.canvasHeight / 4
          uResolution := (winW, winH)
          cameraAspect := winW / winH },
        1,
        { filename := "torus-knot-" ++ toString now ++ ".png"
          imageWidth := winW * 4 * sk.dpr
          imageHeight := winH * 4 * sk.dpr }) ∧
    st.exportHighRes winW winH now =
      ({ st with
          rendererWidth := st.canvasWidth / 4
          rendererHeight := st.canvasHeight / 4
          uResolution := (winW, winH)
          cameraAspect := winW / winH },
        1,
        { filename := "trefoil-halftone-" ++ toString now ++ ".png"
          imageWidth := winW * 4 * st.dpr
          imageHeight := winH * 4 * st.dpr }) ∧
    sp.exportHighRes winW winH now =
      ({ sp with
          rendererWidth := winW
          rendererHeight := winH
          composerWidth := winW
          composerHeight := winH
          cameraAspect := winW / winH },
        1,
        { filename := "torus-prism-" ++ toString now ++ ".png"
          imageWidth := winW * 4 * sp.dpr
          imageHeight := winH * 4 * sp.dpr }) ∧
    sr.exportHighRes now =
      (sr, 0,
        { filename := "torus-prism-" ++ toString now ++ ".png"
          imageWidth := sr.canvasWidth
          imageHeight := sr.canvasHeight }) :=
  ⟨rfl, rfl, rfl, rfl⟩

/-- **C7.** For every experiment, constructing with the `canvas-container`
mount point absent completes (the constructors are total functions): no
canvas is appended, yet the controls are created and the animation loop is
started all the same. -/
theorem construct_without_container (winW winH devicePixelRatio : ℚ) :
    (fun r => (r.canvasAppended, r.controlsCreated, r.animationStarted))
        (TorusKnotExperiment.construct winW winH false) =
      (false, true, true) ∧
    (fun r => (r.canvasAppended, r.controlsCreated, r.animationStarted))
        (TrefoilHalftoneExperiment.construct winW winH false) =
      (false, true, true) ∧
    (fun r => (r.canvasAppended, r.controlsCreated, r.animationStarted))
        (TorusPrismComposerExperiment.construct winW winH devicePixelRatio
          false) =
      (false, true, true) ∧
    (fun r => (r.canvasAppended, r.controlsCreated, r.animationStarted))
        (TorusPrismRefraction.construct winW winH devicePixelRatio false) =
      (false, true, true) :=
  ⟨rfl, rfl, rfl, rfl⟩

/-- **C8.** Each per-frame callback of the three non-refractive
experiments performs exactly one render — directly to the screen for the
torus-knot and trefoil-halftone experiments, through the post-processing
chain for the composer-based torus-prism variants — and that single
destination is never an offscreen refraction target. -/
theorem animate_single_render (sk : TorusKnotExperiment)
    (st : TrefoilHalftoneExperiment) (sp : TorusPrismComposerExperiment) :
    sk.animate.2 = [RenderDest.screen] ∧
    st.animate.2 = [RenderDest.screen] ∧
    sp.animate.2 = [RenderDest.composerChain] ∧
    (∀ t : RT, RenderDest.screen ≠ RenderDest.offscreen t) ∧
    (∀ t : RT, RenderDest.composerChain ≠ RenderDest.offscreen t) :=
  ⟨rfl, rfl, rfl, fun _ h => RenderDest.noConfusion h,
    fun _ h => RenderDest.noConfusion h⟩

/-- Closed instance of `animate_single_render` at the concrete 1000×500
constructor states. -/
theorem animate_single_render_witness :
    knot0.animate.2 = [RenderDest.screen] ∧
    trefoil0.animate.2 = [RenderDest.screen] ∧
    prism0.animate.2 = [RenderDest.composerChain] ∧
    (∀ t : RT, RenderDest.screen ≠ RenderDest.offscreen t) ∧
    (∀ t : RT, RenderDest.composerChain ≠ RenderDest.offscreen t) :=
  animate_single_render knot0 trefoil0 prism0

/-- **C9.** The refraction variant's export mutates no state at all: for
every state the post-export state is the whole pre-export state — renderer
size, camera aspect, both offscreen target sizes and every material
uniform included — and no render is performed; it only reads the current
canvas pixels into the download. -/
theorem refraction_export_mutates_nothing (s : TorusPrismRefraction)
    (now : ℕ) :
    (s.exportHighRes now).1 = s ∧ (s.exportHighRes now).2.1 = 0 :=
  ⟨rfl, rfl⟩

end ThreeExperiments
